import Mathlib

/-!
Shallow embedding of the session/auth lifecycle of `src/lib/auth.tsx`
(the `AuthProvider` component): initialization from durable storage,
`login`, `register`, `logout`, `refreshToken`, `handleUnauthorized` and
the `authFetch` wrapper.

Host browser APIs are modelled explicitly:
* `localStorage` becomes the `Storage` record (three optional slots);
  `localStorage.getItem` returning `null` is `Option.none`.
* React state (`useState` for `token`, `user`, `isLoading`) becomes the
  `Memory` record.
* `router.push` is recorded in a `navEvents` list.
* `fetch` is nondeterministic at the call site, so operations take the
  transport outcome as an explicit argument (`FetchResult`); the number
  of network calls issued is counted in `fetchCalls`.
* `JSON.stringify`/`JSON.parse` of the user record are modelled with the
  `UserBlob` type: a stored blob is either a well-formed serialization of
  a user (`UserBlob.ok`) or an arbitrary non-parsing string
  (`UserBlob.bad`); `JSON.parse` succeeding is exactly `parseUserBlob`
  returning `some`.
* JavaScript truthiness of a possibly-null string (`if (!x)`, `x ? a : b`)
  is `optTruthy`: false exactly on `null` and the empty string.
-/

/-- The `User` interface of `src/lib/auth.tsx`: `{id, email, name}`. -/
structure User where
  id : String
  email : String
  name : String
deriving DecidableEq, Repr

/-- A string sitting in the `"user"` slot of `localStorage`: either the
result of `JSON.stringify` on a user record (which `JSON.parse` inverts),
or corrupted data on which `JSON.parse` throws. -/
inductive UserBlob where
  | ok (u : User)
  | bad (s : String)
deriving DecidableEq, Repr

/-- Model of `JSON.parse` applied to a stored user record: succeeds
exactly on well-formed serializations. -/
def parseUserBlob : UserBlob → Option User
  | .ok u => some u
  | .bad _ => none

/-- Model of `JSON.stringify(user)`. -/
def stringifyUser (u : User) : UserBlob := .ok u

/-- JavaScript truthiness of a `string | null` value: `null` and `""`
are falsy, every other string is truthy. -/
def optTruthy : Option String → Bool
  | none => false
  | some s => !s.isEmpty

/-- Truthiness of the stored user string.  `JSON.stringify` of an object
always yields a nonempty string (it starts with a brace), so a
well-formed blob is always truthy; a corrupted blob is truthy unless it
is the empty string. -/
def blobTruthy : UserBlob → Bool
  | .ok _ => true
  | .bad s => !s.isEmpty

/-- Truthiness of `localStorage.getItem("user")`. -/
def optBlobTruthy : Option UserBlob → Bool
  | none => false
  | some b => blobTruthy b

/-- The three `localStorage` slots used by the session manager.  `none`
means the key is absent. -/
structure Storage where
  accessToken : Option String
  refreshToken : Option String
  user : Option UserBlob
deriving DecidableEq, Repr

/-- The React component state: `useState` hooks `token`, `user`,
`isLoading`. -/
structure Memory where
  token : Option String
  user : Option User
  isLoading : Bool
deriving DecidableEq, Repr

/-- The whole observable client state: durable storage, in-memory React
state, the list of `router.push` targets fired so far, and the number of
`fetch` calls issued so far. -/
structure ClientState where
  storage : Storage
  memory : Memory
  navEvents : List String
  fetchCalls : Nat
deriving DecidableEq, Repr

/-- State at the first render of `AuthProvider`: `useState(null)`,
`useState(null)`, `useState(true)`. -/
def freshMemory : Memory := { token := none, user := none, isLoading := true }

/-- `fetch` resolving with a response: HTTP status and raw body. -/
structure Response where
  status : Nat
  body : String
deriving DecidableEq, Repr

/-- `response.ok`: status in the inclusive range 200–299. -/
def respOk (status : Nat) : Bool := 200 ≤ status && status < 300

/-- Outcome of a `fetch` whose body is then parsed with
`response.json()` into a value of type `β`:
`reject` is a network-level failure (the promise rejects);
`resolve status none` is a response whose body is not valid JSON
(`response.json()` throws); `resolve status (some b)` is a response with
a parseable body. -/
inductive FetchResult (β : Type) where
  | reject
  | resolve (status : Nat) (body : Option β)
deriving DecidableEq, Repr

/-- JSON body of a response to `/auth/login` or `/auth/register`, as the
code reads it: `data.access_token`, `data.refresh_token`, `data.user`
(used on the ok branch) and `data.detail` (used on the error branch;
`none` models the field being absent). -/
structure LoginBody where
  access_token : String
  refresh_token : String
  user : User
  detail : Option String
deriving DecidableEq, Repr

/-- JSON body of a response to `/auth/refresh`: `data.access_token`. -/
structure RefreshBody where
  access_token : String
deriving DecidableEq, Repr

/-- Result shape of `login`/`register`:
`{ success: boolean; error?: string }`. -/
structure OpResult where
  success : Bool
  error : Option String
deriving DecidableEq, Repr

/-- `data.detail || fallback`: the fallback is used when `detail` is
absent or falsy (empty). -/
def detailOr (detail : Option String) (fallback : String) : String :=
  match detail with
  | none => fallback
  | some s => if s.isEmpty then fallback else s

/-- Caller-supplied `RequestInit` options: headers as a key-valued map
plus the method/body fields passed through untouched. -/
structure RequestInit where
  method : Option String
  reqBody : Option String
  headers : String → Option String

/-- Default `options = {}` for `authFetch`. -/
def RequestInit.empty : RequestInit :=
  { method := none, reqBody := none, headers := fun _ => none }

/-- The outbound request actually handed to `fetch` by `authFetch`:
URL, merged headers, and the pass-through fields. -/
structure Request where
  url : String
  method : Option String
  reqBody : Option String
  headers : String → Option String

/-- What `authFetch` does from the caller's point of view: either the
underlying `fetch` rejected and the exception propagates (there is no
try/catch in `authFetch`), or the original response is returned. -/
inductive AuthFetchResult where
  | thrown
  | returned (r : Response)
deriving DecidableEq, Repr

/-- The `Authorization` header value built by `authFetch`:
`currentToken ? "Bearer " + currentToken : ""`. -/
def authHeaderValue (tok : Option String) : String :=
  match tok with
  | none => ""
  | some t => if t.isEmpty then "" else "Bearer " ++ t

/-- The init `useEffect` of `AuthProvider` (lines 49–64): read the
stored access token and stored user; if both are truthy, install the
token in memory and try to parse the user — on parse failure remove the
stored user record; finally clear the loading flag. -/
def initAuth (st : ClientState) : ClientState :=
  let storedToken := st.storage.accessToken
  let storedUser := st.storage.user
  let st1 :=
    if optTruthy storedToken && optBlobTruthy storedUser then
      let st2 := { st with memory := { st.memory with token := storedToken } }
      match storedUser with
      | some blob =>
        match parseUserBlob blob with
        | some u => { st2 with memory := { st2.memory with user := some u } }
        | none => { st2 with storage := { st2.storage with user := none } }
      | none => st2
    else st
  { st1 with memory := { st1.memory with isLoading := false } }

/-- `handleUnauthorized` (lines 66–75): remove the three stored keys,
null out the in-memory token and user, and push `/`. -/
def handleUnauthorized (st : ClientState) : ClientState :=
  { st with
    storage := { accessToken := none, refreshToken := none, user := none }
    memory := { st.memory with token := none, user := none }
    navEvents := st.navEvents ++ ["/"] }

/-- `logout` (lines 156–163): same clearing and redirect as
`handleUnauthorized`. -/
def logout (st : ClientState) : ClientState :=
  { st with
    storage := { accessToken := none, refreshToken := none, user := none }
    memory := { st.memory with token := none, user := none }
    navEvents := st.navEvents ++ ["/"] }

/-- `authFetch` (lines 78–97): read the current access token from
storage, issue the request with the merged headers (the explicit
`Authorization` entry of the object literal overrides any caller-supplied
one), and on a 401 response run `handleUnauthorized` before returning
the response unchanged.  A rejected `fetch` propagates (`thrown`).
Returns the caller-visible result, the request handed to `fetch`, and
the resulting state. -/
def authFetch (st : ClientState) (url : String) (opts : RequestInit)
    (outcome : Option Response) : AuthFetchResult × Request × ClientState :=
  let currentToken := st.storage.accessToken
  let req : Request :=
    { url := url
      method := opts.method
      reqBody := opts.reqBody
      headers := fun k =>
        if k = "Authorization" then some (authHeaderValue currentToken)
        else opts.headers k }
  let st1 := { st with fetchCalls := st.fetchCalls + 1 }
  match outcome with
  | none => (.thrown, req, st1)
  | some resp =>
    if resp.status = 401 then (.returned resp, req, handleUnauthorized st1)
    else (.returned resp, req, st1)

/-- `login` (lines 99–127): one network call; on an ok response with a
parseable body, persist all three fields and install token and user in
memory; on a non-ok response report the server's `detail` (or the
default message); a rejected `fetch` or a body on which
`response.json()` throws lands in the `catch` with the generic network
message.  The `email`/`password` arguments only feed the outbound
request body, which no observable state depends on. -/
def login (st : ClientState) (_email _password : String)
    (outcome : FetchResult LoginBody) : OpResult × ClientState :=
  let st1 := { st with fetchCalls := st.fetchCalls + 1 }
  match outcome with
  | .reject => ({ success := false, error := some "Network error. Please try again." }, st1)
  | .resolve status body =>
    match body with
    | none => ({ success := false, error := some "Network error. Please try again." }, st1)
    | some data =>
      if respOk status then
        ({ success := true, error := none },
          { st1 with
            storage :=
              { accessToken := some data.access_token
                refreshToken := some data.refresh_token
                user := some (stringifyUser data.user) }
            memory := { st1.memory with
              token := some data.access_token
              user := some data.user } })
      else
        ({ success := false, error := some (detailOr data.detail "Invalid email or password") }, st1)

/-- `register` (lines 129–154): identical to `login` except for the
endpoint, the request body and the default error message. -/
def register (st : ClientState) (_name _email _password : String)
    (outcome : FetchResult LoginBody) : OpResult × ClientState :=
  let st1 := { st with fetchCalls := st.fetchCalls + 1 }
  match outcome with
  | .reject => ({ success := false, error := some "Network error. Please try again." }, st1)
  | .resolve status body =>
    match body with
    | none => ({ success := false, error := some "Network error. Please try again." }, st1)
    | some data =>
      if respOk status then
        ({ success := true, error := none },
          { st1 with
            storage :=
              { accessToken := some data.access_token
                refreshToken := some data.refresh_token
                user := some (stringifyUser data.user) }
            memory := { st1.memory with
              token := some data.access_token
              user := some data.user } })
      else
        ({ success := false, error := some (detailOr data.detail "Registration failed") }, st1)

/-- `refreshToken` (lines 165–191): bail out with `false` and no network
call when the stored refresh token is falsy; otherwise one network call;
on an ok response with a parseable body overwrite only the access token
(storage and memory) and return `true`; on a non-ok response with a
parseable body call `logout()` and return `false`; a rejected `fetch` or
a throwing `response.json()` lands in the `catch`, which returns `false`
without touching any state. -/
def refreshToken (st : ClientState) (outcome : FetchResult RefreshBody) :
    Bool × ClientState :=
  let storedRefreshToken := st.storage.refreshToken
  if !optTruthy storedRefreshToken then (false, st)
  else
    let st1 := { st with fetchCalls := st.fetchCalls + 1 }
    match outcome with
    | .reject => (false, st1)
    | .resolve status body =>
      match body with
      | none => (false, st1)
      | some data =>
        if respOk status then
          (true,
            { st1 with
              storage := { st1.storage with accessToken := some data.access_token }
              memory := { st1.memory with token := some data.access_token } })
        else (false, logout st1)

/-- The very first client state: empty storage, freshly mounted
provider, no navigation, no network calls. -/
def initialState : ClientState :=
  { storage := { accessToken := none, refreshToken := none, user := none }
    memory := freshMemory
    navEvents := []
    fetchCalls := 0 }

/-- A page (re)load: storage survives, the React state is remounted
fresh (the init effect then runs, see `Step.boot`). -/
def bootState (st : ClientState) : ClientState :=
  { st with memory := freshMemory }

/-- A well-formed response from the credential-exchange or registration
endpoint: on the success branch the server hands back nonempty token
strings (the spec's "valid `{accessToken, refreshToken, user}` triple").
Failure outcomes are unconstrained. -/
def ValidLoginOutcome : FetchResult LoginBody → Prop
  | .resolve _ (some b) => b.access_token.isEmpty = false ∧ b.refresh_token.isEmpty = false
  | _ => True

/-- A well-formed response from the renewal endpoint: a freshly minted
access token is a nonempty string. -/
def ValidRefreshOutcome : FetchResult RefreshBody → Prop
  | .resolve _ (some b) => b.access_token.isEmpty = false
  | _ => True

/-- One observable step of the session manager: a page (re)load running
the init effect, or any one of the exposed operations with an arbitrary
well-formed transport outcome. -/
inductive Step : ClientState → ClientState → Prop where
  | boot (st : ClientState) : Step st (initAuth (bootState st))
  | doLogin (st : ClientState) (e p : String) (o : FetchResult LoginBody)
      (hv : ValidLoginOutcome o) : Step st (login st e p o).2
  | doRegister (st : ClientState) (n e p : String) (o : FetchResult LoginBody)
      (hv : ValidLoginOutcome o) : Step st (register st n e p o).2
  | doLogout (st : ClientState) : Step st (logout st)
  | doUnauthorized (st : ClientState) : Step st (handleUnauthorized st)
  | doRefresh (st : ClientState) (o : FetchResult RefreshBody)
      (hv : ValidRefreshOutcome o) : Step st (refreshToken st o).2
  | doAuthFetch (st : ClientState) (url : String) (opts : RequestInit)
      (outcome : Option Response) : Step st (authFetch st url opts outcome).2.2

/-- States the session manager can actually be in: reachable from the
empty initial state by boots and operations. -/
def Reachable (st : ClientState) : Prop :=
  Relation.ReflTransGen Step initialState st

/-- The inductive session invariant: in-memory token and user are
present together or absent together; the stored user record, when
present, is a well-formed serialization; and a (truthy) stored refresh
token only ever coexists with a truthy stored access token, a stored
user record, and a cached in-memory user. -/
def SessionInv (st : ClientState) : Prop :=
  st.memory.token.isSome = st.memory.user.isSome
  ∧ (∀ s, st.storage.user ≠ some (.bad s))
  ∧ (optTruthy st.storage.refreshToken = true →
      optTruthy st.storage.accessToken = true
      ∧ st.storage.user.isSome = true
      ∧ st.memory.user.isSome = true)


lemma initAuth_restore (st : ClientState) (a : String) (u : User)
    (ha : st.storage.accessToken = some a) (hna : a.isEmpty = false)
    (hu : st.storage.user = some (.ok u)) :
    initAuth st =
      { st with memory := { token := some a, user := some u, isLoading := false } } := by
  simp [initAuth, ha, hu, optTruthy, optBlobTruthy, blobTruthy, parseUserBlob, hna]

lemma initAuth_corrupt (st : ClientState) (a s : String)
    (ha : st.storage.accessToken = some a) (hna : a.isEmpty = false)
    (hu : st.storage.user = some (.bad s)) (hns : s.isEmpty = false) :
    initAuth st =
      { st with
        storage := { st.storage with user := none }
        memory := { st.memory with token := some a, isLoading := false } } := by
  simp [initAuth, ha, hu, optTruthy, optBlobTruthy, blobTruthy, parseUserBlob, hna, hns]

lemma initAuth_skip (st : ClientState)
    (h : (optTruthy st.storage.accessToken && optBlobTruthy st.storage.user) = false) :
    initAuth st = { st with memory := { st.memory with isLoading := false } } := by
  simp only [initAuth, h, Bool.false_eq_true, if_false]

lemma sessionInv_boot (st : ClientState) (h : SessionInv st) :
    SessionInv (initAuth (bootState st)) := by
  simp only [SessionInv] at h ⊢
  obtain ⟨h1, h2, h3⟩ := h
  rcases hu : st.storage.user with _ | blob
  · rw [initAuth_skip (bootState st) (by simp [bootState, hu, optBlobTruthy])]
    refine ⟨by simp [bootState, freshMemory], fun s => by simp [bootState, hu], fun hr => ?_⟩
    exfalso
    have hx := (h3 (by simpa [bootState] using hr)).2.1
    rw [hu] at hx
    simp at hx
  · rcases blob with u | s
    · rcases ha : st.storage.accessToken with _ | a
      · rw [initAuth_skip (bootState st) (by simp [bootState, ha, optTruthy])]
        refine ⟨by simp [bootState, freshMemory], fun s => by simp [bootState, hu], fun hr => ?_⟩
        exfalso
        have hx := (h3 (by simpa [bootState] using hr)).1
        rw [ha] at hx
        simp [optTruthy] at hx
      · by_cases hae : a.isEmpty = true
        · rw [initAuth_skip (bootState st) (by simp [bootState, ha, optTruthy, hae])]
          refine ⟨by simp [bootState, freshMemory], fun s => by simp [bootState, hu], fun hr => ?_⟩
          exfalso
          have hx := (h3 (by simpa [bootState] using hr)).1
          rw [ha] at hx
          simp [optTruthy, hae] at hx
        · have hae' : a.isEmpty = false := by
            cases hx : a.isEmpty
            · rfl
            · exact absurd hx hae
          rw [initAuth_restore (bootState st) a u (by simp [bootState, ha]) hae'
            (by simp [bootState, hu])]
          refine ⟨by simp, fun s => by simp [bootState, hu], fun hr => ?_⟩
          exact ⟨by simp [bootState, ha, optTruthy, hae'], by simp [bootState, hu], by simp⟩
    · exact absurd hu (h2 s)

lemma sessionInv_login (st : ClientState) (e p : String) (o : FetchResult LoginBody)
    (hv : ValidLoginOutcome o) (h : SessionInv st) : SessionInv (login st e p o).2 := by
  simp only [SessionInv] at h ⊢
  obtain ⟨h1, h2, h3⟩ := h
  rcases o with _ | ⟨status, body⟩
  · simpa [login] using ⟨h1, h2, h3⟩
  · rcases body with _ | data
    · simpa [login] using ⟨h1, h2, h3⟩
    · by_cases hok : respOk status = true
      · obtain ⟨hva, hvr⟩ := hv
        simp [login, hok, stringifyUser, optTruthy, hva, hvr]
      · simpa [login, hok] using ⟨h1, h2, h3⟩

lemma sessionInv_register (st : ClientState) (n e p : String) (o : FetchResult LoginBody)
    (hv : ValidLoginOutcome o) (h : SessionInv st) : SessionInv (register st n e p o).2 := by
  simp only [SessionInv] at h ⊢
  obtain ⟨h1, h2, h3⟩ := h
  rcases o with _ | ⟨status, body⟩
  · simpa [register] using ⟨h1, h2, h3⟩
  · rcases body with _ | data
    · simpa [register] using ⟨h1, h2, h3⟩
    · by_cases hok : respOk status = true
      · obtain ⟨hva, hvr⟩ := hv
        simp [register, hok, stringifyUser, optTruthy, hva, hvr]
      · simpa [register, hok] using ⟨h1, h2, h3⟩

lemma sessionInv_logout (st : ClientState) : SessionInv (logout st) := by
  simp [SessionInv, logout, optTruthy]

lemma sessionInv_handleUnauthorized (st : ClientState) :
    SessionInv (handleUnauthorized st) := by
  simp [SessionInv, handleUnauthorized, optTruthy]

lemma refreshToken_noToken (st : ClientState) (o : FetchResult RefreshBody)
    (h : optTruthy st.storage.refreshToken = false) :
    refreshToken st o = (false, st) := by
  simp [refreshToken, h]

lemma refreshToken_reject (st : ClientState)
    (h : optTruthy st.storage.refreshToken = true) :
    refreshToken st .reject = (false, { st with fetchCalls := st.fetchCalls + 1 }) := by
  simp [refreshToken, h]

lemma refreshToken_badBody (st : ClientState) (status : Nat)
    (h : optTruthy st.storage.refreshToken = true) :
    refreshToken st (.resolve status none) =
      (false, { st with fetchCalls := st.fetchCalls + 1 }) := by
  simp [refreshToken, h]

lemma refreshToken_success (st : ClientState) (status : Nat) (data : RefreshBody)
    (h : optTruthy st.storage.refreshToken = true) (hok : respOk status = true) :
    refreshToken st (.resolve status (some data)) =
      (true,
        { st with
          storage := { st.storage with accessToken := some data.access_token }
          memory := { st.memory with token := some data.access_token }
          fetchCalls := st.fetchCalls + 1 }) := by
  simp [refreshToken, h, hok]

lemma refreshToken_rejected (st : ClientState) (status : Nat) (data : RefreshBody)
    (h : optTruthy st.storage.refreshToken = true) (hok : respOk status = false) :
    refreshToken st (.resolve status (some data)) =
      (false, logout { st with fetchCalls := st.fetchCalls + 1 }) := by
  simp [refreshToken, h, hok]

lemma sessionInv_refresh (st : ClientState) (o : FetchResult RefreshBody)
    (hv : ValidRefreshOutcome o) (h : SessionInv st) : SessionInv (refreshToken st o).2 := by
  simp only [SessionInv] at h ⊢
  obtain ⟨h1, h2, h3⟩ := h
  cases hrt : optTruthy st.storage.refreshToken with
  | false => rw [refreshToken_noToken st o hrt]; exact ⟨h1, h2, h3⟩
  | true =>
    obtain ⟨ha, hsu, hmu⟩ := h3 hrt
    rcases o with _ | ⟨status, body⟩
    · rw [refreshToken_reject st hrt]
      exact ⟨h1, h2, fun _ => ⟨ha, hsu, hmu⟩⟩
    · rcases body with _ | data
      · rw [refreshToken_badBody st status hrt]
        exact ⟨h1, h2, fun _ => ⟨ha, hsu, hmu⟩⟩
      · cases hok : respOk status with
        | true =>
          have hva : data.access_token.isEmpty = false := hv
          rw [refreshToken_success st status data hrt hok]
          exact ⟨by simp [hmu], h2, fun _ => ⟨by simp [optTruthy, hva], hsu, hmu⟩⟩
        | false =>
          rw [refreshToken_rejected st status data hrt hok]
          exact sessionInv_logout _

lemma sessionInv_authFetch (st : ClientState) (url : String) (opts : RequestInit)
    (outcome : Option Response) (h : SessionInv st) :
    SessionInv (authFetch st url opts outcome).2.2 := by
  simp only [SessionInv] at h ⊢
  obtain ⟨h1, h2, h3⟩ := h
  rcases outcome with _ | resp
  · exact ⟨h1, h2, h3⟩
  · by_cases h401 : resp.status = 401
    · simp only [authFetch, h401, if_true]
      exact sessionInv_handleUnauthorized _
    · simp only [authFetch, h401, if_false]
      exact ⟨h1, h2, h3⟩

lemma sessionInv_step (st st2 : ClientState) (hs : Step st st2) (h : SessionInv st) :
    SessionInv st2 := by
  cases hs with
  | boot => exact sessionInv_boot st h
  | doLogin e p o hv => exact sessionInv_login st e p o hv h
  | doRegister n e p o hv => exact sessionInv_register st n e p o hv h
  | doLogout => exact sessionInv_logout st
  | doUnauthorized => exact sessionInv_handleUnauthorized st
  | doRefresh o hv => exact sessionInv_refresh st o hv h
  | doAuthFetch url opts outcome => exact sessionInv_authFetch st url opts outcome h

lemma sessionInv_initialState : SessionInv initialState := by
  simp [SessionInv, initialState, freshMemory, optTruthy]

lemma sessionInv_reachable (st : ClientState) (h : Reachable st) : SessionInv st := by
  induction h with
  | refl => exact sessionInv_initialState
  | tail _ h2 ih => exact sessionInv_step _ _ h2 ih

lemma bool_eq_false (b : Bool) (h : ¬ b = true) : b = false := by
  cases b
  · rfl
  · exact absurd rfl h

/-- A sample user record, for concrete evaluations. -/
def sampleUser : User := { id := "1", email := "a@b.com", name := "A" }

/-- A sample fully-populated session (the state right after a successful
login of `sampleUser`). -/
def sampleSession : ClientState :=
  { storage :=
      { accessToken := some "T1", refreshToken := some "R1"
        user := some (.ok sampleUser) }
    memory := { token := some "T1", user := some sampleUser, isLoading := false }
    navEvents := []
    fetchCalls := 0 }

/-- C1 counterexample: from a fully-populated session, a network error
during `refreshToken` returns failure but leaves the stored access
token, refresh token and user record fully intact — the state does not
equal the post-logout state with all three fields cleared. -/
theorem refreshToken_networkError_leaves_state :
    (refreshToken sampleSession .reject).1 = false ∧
    (refreshToken sampleSession .reject).2.storage.accessToken = some "T1" ∧
    (refreshToken sampleSession .reject).2.storage.refreshToken = some "R1" ∧
    (refreshToken sampleSession .reject).2.memory.token = some "T1" ∧
    ¬((refreshToken sampleSession .reject).2.storage.accessToken = none ∧
      (refreshToken sampleSession .reject).2.storage.refreshToken = none ∧
      (refreshToken sampleSession .reject).2.storage.user = none) := by
  decide

/-- C1 (amended): with a (truthy) stored refresh token, if the renewal
endpoint rejects with a parseable body, `refreshToken` returns failure
and the resulting state is exactly the post-logout state (all three
session fields cleared in storage and memory, plus the redirect); if
instead the transport fails — the fetch rejects, or a response (of any
status) arrives whose body fails to parse — `refreshToken` returns
failure but the state is unchanged apart from the network-call count. -/
theorem refreshToken_failure_modes (st : ClientState) (status status2 : Nat)
    (data : RefreshBody)
    (h : optTruthy st.storage.refreshToken = true) (hok : respOk status = false) :
    (refreshToken st (.resolve status (some data))).1 = false ∧
    (refreshToken st (.resolve status (some data))).2 =
      logout { st with fetchCalls := st.fetchCalls + 1 } ∧
    (refreshToken st (.resolve status (some data))).2.storage =
      { accessToken := none, refreshToken := none, user := none } ∧
    (refreshToken st (.resolve status (some data))).2.memory.token = none ∧
    (refreshToken st (.resolve status (some data))).2.memory.user = none ∧
    (refreshToken st .reject).1 = false ∧
    (refreshToken st .reject).2 = { st with fetchCalls := st.fetchCalls + 1 } ∧
    (refreshToken st (.resolve status2 none)).1 = false ∧
    (refreshToken st (.resolve status2 none)).2 =
      { st with fetchCalls := st.fetchCalls + 1 } := by
  rw [refreshToken_rejected st status data h hok, refreshToken_reject st h,
    refreshToken_badBody st status2 h]
  simp [logout]

/-- Witness for C1 at a concrete session and a concrete 401 rejection. -/
theorem refreshToken_failure_modes_witness :
    (refreshToken sampleSession (.resolve 401 (some { access_token := "X" }))).1 = false ∧
    (refreshToken sampleSession (.resolve 401 (some { access_token := "X" }))).2 =
      logout { sampleSession with fetchCalls := sampleSession.fetchCalls + 1 } ∧
    (refreshToken sampleSession (.resolve 401 (some { access_token := "X" }))).2.storage =
      { accessToken := none, refreshToken := none, user := none } ∧
    (refreshToken sampleSession (.resolve 401 (some { access_token := "X" }))).2.memory.token = none ∧
    (refreshToken sampleSession (.resolve 401 (some { access_token := "X" }))).2.memory.user = none ∧
    (refreshToken sampleSession .reject).1 = false ∧
    (refreshToken sampleSession .reject).2 =
      { sampleSession with fetchCalls := sampleSession.fetchCalls + 1 } ∧
    (refreshToken sampleSession (.resolve 200 none)).1 = false ∧
    (refreshToken sampleSession (.resolve 200 none)).2 =
      { sampleSession with fetchCalls := sampleSession.fetchCalls + 1 } :=
  refreshToken_failure_modes sampleSession 401 200 { access_token := "X" }
    (by decide) (by decide)

/-- A stored state with a (truthy) access token next to a corrupted
serialized user record. -/
def corruptUserWithToken : ClientState :=
  { storage :=
      { accessToken := some "T1", refreshToken := none, user := some (.bad "garbage") }
    memory := freshMemory
    navEvents := []
    fetchCalls := 0 }

/-- C2 counterexample: initialization over a stored access token plus a
corrupted stored user record commits an in-memory state with a token
but no user — the two fields are not both-present-or-both-absent. -/
theorem initAuth_corrupt_breaks_pairing :
    (initAuth corruptUserWithToken).memory.token = some "T1" ∧
    (initAuth corruptUserWithToken).memory.user = none ∧
    ¬((initAuth corruptUserWithToken).memory.token.isSome =
      (initAuth corruptUserWithToken).memory.user.isSome) := by
  decide

/-- C2 (amended): in every state actually reachable by the session
manager — from the empty initial state via page loads (running the init
effect) and the exposed operations, with the server returning nonempty
token strings on success — the in-memory access token and user are both
present or both absent.  (Initialization over externally corrupted
storage, as in the counterexample, escapes this.) -/
theorem token_user_pairing_reachable (st : ClientState) (h : Reachable st) :
    st.memory.token.isSome = st.memory.user.isSome :=
  (sessionInv_reachable st h).1

/-- A successful credential-exchange response body, for concrete
evaluations. -/
def sampleLoginBody : LoginBody :=
  { access_token := "T1", refresh_token := "R1", user := sampleUser, detail := none }

/-- Witness for C2: the pairing invariant at the state reached by one
successful login from the initial state. -/
theorem token_user_pairing_reachable_witness :
    (login initialState "a@b.com" "pw"
        (.resolve 200 (some sampleLoginBody))).2.memory.token.isSome =
    (login initialState "a@b.com" "pw"
        (.resolve 200 (some sampleLoginBody))).2.memory.user.isSome :=
  token_user_pairing_reachable _
    (Relation.ReflTransGen.single
      (Step.doLogin initialState "a@b.com" "pw" _ ⟨rfl, rfl⟩))

/-- C3: on any response with status 401, `authFetch` clears the three
stored fields and the in-memory token/user, fires exactly one navigation
to the public route `/`, returns the original response unchanged, and
issues exactly the one original network request (no retry, no refresh
call). -/
theorem authFetch_unauthorized_clears_and_redirects (st : ClientState) (url : String)
    (opts : RequestInit) (resp : Response) (h : resp.status = 401) :
    (authFetch st url opts (some resp)).1 = .returned resp ∧
    (authFetch st url opts (some resp)).2.2.storage =
      { accessToken := none, refreshToken := none, user := none } ∧
    (authFetch st url opts (some resp)).2.2.memory.token = none ∧
    (authFetch st url opts (some resp)).2.2.memory.user = none ∧
    (authFetch st url opts (some resp)).2.2.navEvents = st.navEvents ++ ["/"] ∧
    (authFetch st url opts (some resp)).2.2.fetchCalls = st.fetchCalls + 1 := by
  simp [authFetch, h, handleUnauthorized]

/-- Witness for C3 at a concrete session and a concrete 401 response. -/
theorem authFetch_unauthorized_clears_and_redirects_witness :
    (authFetch sampleSession "/api/x" RequestInit.empty
        (some { status := 401, body := "nope" })).1 =
      .returned { status := 401, body := "nope" } ∧
    (authFetch sampleSession "/api/x" RequestInit.empty
        (some { status := 401, body := "nope" })).2.2.storage =
      { accessToken := none, refreshToken := none, user := none } ∧
    (authFetch sampleSession "/api/x" RequestInit.empty
        (some { status := 401, body := "nope" })).2.2.memory.token = none ∧
    (authFetch sampleSession "/api/x" RequestInit.empty
        (some { status := 401, body := "nope" })).2.2.memory.user = none ∧
    (authFetch sampleSession "/api/x" RequestInit.empty
        (some { status := 401, body := "nope" })).2.2.navEvents =
      sampleSession.navEvents ++ ["/"] ∧
    (authFetch sampleSession "/api/x" RequestInit.empty
        (some { status := 401, body := "nope" })).2.2.fetchCalls =
      sampleSession.fetchCalls + 1 :=
  authFetch_unauthorized_clears_and_redirects sampleSession "/api/x"
    RequestInit.empty { status := 401, body := "nope" } rfl

/-- C4: with no refresh token in storage, `refreshToken` returns failure
with the state literally unchanged — in particular the network-call
count is unchanged, so no network call was made. -/
theorem refreshToken_absent_no_call (st : ClientState) (o : FetchResult RefreshBody)
    (h : st.storage.refreshToken = none) :
    refreshToken st o = (false, st) ∧
    (refreshToken st o).2.fetchCalls = st.fetchCalls :=
  ⟨refreshToken_noToken st o (by simp [optTruthy, h]),
   by rw [refreshToken_noToken st o (by simp [optTruthy, h])]⟩

/-- Witness for C4 on a logged-out storage with an adversarially chosen
transport outcome. -/
theorem refreshToken_absent_no_call_witness :
    refreshToken initialState (.resolve 200 (some { access_token := "T9" })) =
      (false, initialState) ∧
    (refreshToken initialState (.resolve 200 (some { access_token := "T9" }))).2.fetchCalls =
      initialState.fetchCalls :=
  refreshToken_absent_no_call initialState (.resolve 200 (some { access_token := "T9" })) rfl

/-- C5: when the renewal endpoint answers ok with a parseable body,
`refreshToken` returns success and overwrites only the access token in
storage and memory; the stored refresh token, the stored user record,
the in-memory user, and the navigation history are all unchanged. -/
theorem refreshToken_success_frame (st : ClientState) (status : Nat) (data : RefreshBody)
    (h : optTruthy st.storage.refreshToken = true) (hok : respOk status = true) :
    (refreshToken st (.resolve status (some data))).1 = true ∧
    (refreshToken st (.resolve status (some data))).2.storage.accessToken =
      some data.access_token ∧
    (refreshToken st (.resolve status (some data))).2.memory.token =
      some data.access_token ∧
    (refreshToken st (.resolve status (some data))).2.storage.refreshToken =
      st.storage.refreshToken ∧
    (refreshToken st (.resolve status (some data))).2.storage.user = st.storage.user ∧
    (refreshToken st (.resolve status (some data))).2.memory.user = st.memory.user ∧
    (refreshToken st (.resolve status (some data))).2.navEvents = st.navEvents := by
  rw [refreshToken_success st status data h hok]
  simp

/-- Witness for C5: refreshing the sample session to a new token T2. -/
theorem refreshToken_success_frame_witness :
    (refreshToken sampleSession (.resolve 200 (some { access_token := "T2" }))).1 = true ∧
    (refreshToken sampleSession (.resolve 200 (some { access_token := "T2" }))).2.storage.accessToken =
      some "T2" ∧
    (refreshToken sampleSession (.resolve 200 (some { access_token := "T2" }))).2.memory.token =
      some "T2" ∧
    (refreshToken sampleSession (.resolve 200 (some { access_token := "T2" }))).2.storage.refreshToken =
      sampleSession.storage.refreshToken ∧
    (refreshToken sampleSession (.resolve 200 (some { access_token := "T2" }))).2.storage.user =
      sampleSession.storage.user ∧
    (refreshToken sampleSession (.resolve 200 (some { access_token := "T2" }))).2.memory.user =
      sampleSession.memory.user ∧
    (refreshToken sampleSession (.resolve 200 (some { access_token := "T2" }))).2.navEvents =
      sampleSession.navEvents :=
  refreshToken_success_frame sampleSession 200 { access_token := "T2" } (by decide) (by decide)

lemma authFetch_request (st : ClientState) (url : String) (opts : RequestInit)
    (outcome : Option Response) :
    (authFetch st url opts outcome).2.1 =
      { url := url
        method := opts.method
        reqBody := opts.reqBody
        headers := fun k =>
          if k = "Authorization" then some (authHeaderValue st.storage.accessToken)
          else opts.headers k } := by
  rcases outcome with _ | resp
  · rfl
  · by_cases h : resp.status = 401 <;> simp [authFetch, h]

/-- C6: the request issued by `authFetch` carries the URL, method and
body unchanged; its `Authorization` header is derived from the access
token read from durable storage (so two states differing only in memory
issue the same header), and every other header is the caller's —
a caller-supplied `Authorization` entry never survives the merge. -/
theorem authFetch_header_merge (st : ClientState) (url : String) (opts : RequestInit)
    (outcome : Option Response) :
    (authFetch st url opts outcome).2.1.headers "Authorization" =
      some (authHeaderValue st.storage.accessToken) ∧
    (∀ k, k ≠ "Authorization" →
      (authFetch st url opts outcome).2.1.headers k = opts.headers k) ∧
    (authFetch st url opts outcome).2.1.url = url ∧
    (authFetch st url opts outcome).2.1.method = opts.method ∧
    (authFetch st url opts outcome).2.1.reqBody = opts.reqBody ∧
    (∀ m : Memory,
      (authFetch { st with memory := m } url opts outcome).2.1.headers "Authorization" =
      (authFetch st url opts outcome).2.1.headers "Authorization") := by
  rw [authFetch_request st url opts outcome]
  refine ⟨by simp, fun k hk => by simp [hk], rfl, rfl, rfl, fun m => ?_⟩
  rw [authFetch_request { st with memory := m } url opts outcome]

/-- Caller options that try to smuggle in their own authorization
header. -/
def evilOpts : RequestInit :=
  { method := some "POST"
    reqBody := some "b"
    headers := fun k =>
      if k = "Authorization" then some "Bearer EVIL"
      else if k = "X-Trace" then some "t1" else none }

/-- Witness for C6: with the sample session and adversarial caller
headers, the issued `Authorization` header is the storage-derived one
and the unrelated caller header passes through. -/
theorem authFetch_header_merge_witness :
    (authFetch sampleSession "/api/x" evilOpts
        (some { status := 200, body := "ok" })).2.1.headers "Authorization" =
      some (authHeaderValue sampleSession.storage.accessToken) ∧
    (authFetch sampleSession "/api/x" evilOpts
        (some { status := 200, body := "ok" })).2.1.headers "X-Trace" =
      evilOpts.headers "X-Trace" :=
  ⟨(authFetch_header_merge sampleSession "/api/x" evilOpts
      (some { status := 200, body := "ok" })).1,
   (authFetch_header_merge sampleSession "/api/x" evilOpts
      (some { status := 200, body := "ok" })).2.1 "X-Trace" (by decide)⟩

/-- C7: on an ok response with a parseable body, `login` reports success
and installs exactly the returned triple in durable storage (the user
via an invertible serialization) and in memory; `register` reports
success and produces the identical state. -/
theorem login_register_success_installs_triple (st : ClientState) (e p n : String)
    (status : Nat) (data : LoginBody) (hok : respOk status = true) :
    ((login st e p (.resolve status (some data))).1 = { success := true, error := none } ∧
      (login st e p (.resolve status (some data))).2.storage =
        { accessToken := some data.access_token, refreshToken := some data.refresh_token, user := some (stringifyUser data.user) } ∧
      (login st e p (.resolve status (some data))).2.memory.token = some data.access_token ∧
      (login st e p (.resolve status (some data))).2.memory.user = some data.user ∧
      parseUserBlob (stringifyUser data.user) = some data.user) ∧
    ((register st n e p (.resolve status (some data))).1 =
        { success := true, error := none } ∧
      (register st n e p (.resolve status (some data))).2 =
        (login st e p (.resolve status (some data))).2) := by
  simp [login, register, hok, stringifyUser, parseUserBlob]

/-- Witness for C7: logging in from the initial state with the sample
triple. -/
theorem login_register_success_installs_triple_witness :
    ((login initialState "a@b.com" "pw" (.resolve 200 (some sampleLoginBody))).1 =
        { success := true, error := none } ∧
      (login initialState "a@b.com" "pw" (.resolve 200 (some sampleLoginBody))).2.storage =
        { accessToken := some sampleLoginBody.access_token, refreshToken := some sampleLoginBody.refresh_token, user := some (stringifyUser sampleLoginBody.user) } ∧
      (login initialState "a@b.com" "pw"
          (.resolve 200 (some sampleLoginBody))).2.memory.token =
        some sampleLoginBody.access_token ∧
      (login initialState "a@b.com" "pw"
          (.resolve 200 (some sampleLoginBody))).2.memory.user =
        some sampleLoginBody.user ∧
      parseUserBlob (stringifyUser sampleLoginBody.user) = some sampleLoginBody.user) ∧
    ((register initialState "A" "a@b.com" "pw"
          (.resolve 200 (some sampleLoginBody))).1 =
        { success := true, error := none } ∧
      (register initialState "A" "a@b.com" "pw"
          (.resolve 200 (some sampleLoginBody))).2 =
        (login initialState "a@b.com" "pw" (.resolve 200 (some sampleLoginBody))).2) :=
  login_register_success_installs_triple initialState "a@b.com" "pw" "A" 200
    sampleLoginBody (by decide)

/-- Transport outcomes on which `login`/`register` take their success
branch: a response whose status is ok and whose body parses. -/
def loginSuccessOutcome : FetchResult LoginBody → Bool
  | .resolve status (some _) => respOk status
  | _ => false

/-- C8: on every non-success transport outcome — network rejection,
unparseable body, or non-ok status — `login` and `register` return a
typed failure result carrying a message, and leave storage, memory and
navigation untouched.  (Both operations are total functions into
`OpResult`: the source wraps every path in try/catch, so no exception
escapes.) -/
theorem login_register_failure_no_writes (st : ClientState) (e p n : String)
    (o : FetchResult LoginBody) (h : loginSuccessOutcome o = false) :
    ((login st e p o).1.success = false ∧ (login st e p o).1.error.isSome = true ∧
      (login st e p o).2.storage = st.storage ∧
      (login st e p o).2.memory = st.memory ∧
      (login st e p o).2.navEvents = st.navEvents) ∧
    ((register st n e p o).1.success = false ∧
      (register st n e p o).1.error.isSome = true ∧
      (register st n e p o).2.storage = st.storage ∧
      (register st n e p o).2.memory = st.memory ∧
      (register st n e p o).2.navEvents = st.navEvents) := by
  rcases o with _ | ⟨status, body⟩
  · simp [login, register]
  · rcases body with _ | data
    · simp [login, register]
    · simp only [loginSuccessOutcome] at h
      simp [login, register, h, detailOr]

/-- Witness for C8: a network error during login/register from the
sample session. -/
theorem login_register_failure_no_writes_witness :
    ((login sampleSession "a@b.com" "pw" .reject).1.success = false ∧
      (login sampleSession "a@b.com" "pw" .reject).1.error.isSome = true ∧
      (login sampleSession "a@b.com" "pw" .reject).2.storage = sampleSession.storage ∧
      (login sampleSession "a@b.com" "pw" .reject).2.memory = sampleSession.memory ∧
      (login sampleSession "a@b.com" "pw" .reject).2.navEvents =
        sampleSession.navEvents) ∧
    ((register sampleSession "A" "a@b.com" "pw" .reject).1.success = false ∧
      (register sampleSession "A" "a@b.com" "pw" .reject).1.error.isSome = true ∧
      (register sampleSession "A" "a@b.com" "pw" .reject).2.storage =
        sampleSession.storage ∧
      (register sampleSession "A" "a@b.com" "pw" .reject).2.memory =
        sampleSession.memory ∧
      (register sampleSession "A" "a@b.com" "pw" .reject).2.navEvents =
        sampleSession.navEvents) :=
  login_register_failure_no_writes sampleSession "a@b.com" "pw" "A" .reject (by decide)

/-- A stored state with a corrupted serialized user record and no
stored access token. -/
def corruptUserNoToken : ClientState :=
  { storage := { accessToken := none, refreshToken := none, user := some (.bad "oops") }
    memory := freshMemory
    navEvents := []
    fetchCalls := 0 }

/-- C9 counterexample: with no stored access token, initialization over
a corrupted stored user record leaves the corrupted record sitting in
storage — it is not discarded. -/
theorem initAuth_corrupt_kept_without_token :
    (initAuth corruptUserNoToken).storage.user = some (.bad "oops") ∧
    ¬((initAuth corruptUserNoToken).storage.user = none) := by
  decide

/-- C9 (amended): initialization over a corrupted stored user record is
a total function (no exception escapes), clears the loading flag, and
yields a null in-memory user; the other two storage slots are untouched.
The corrupted record is discarded from storage — and the in-memory token
mirrors the stored one — only when a truthy access token was also stored
(and the corrupt string is itself truthy); otherwise the restore pass is
skipped entirely, the in-memory token stays null and the corrupted
record remains in storage. -/
theorem initAuth_corrupt_recovery (st : ClientState) (s : String)
    (hu : st.storage.user = some (.bad s)) (hm : st.memory = freshMemory) :
    (initAuth st).memory.user = none ∧
    (initAuth st).memory.isLoading = false ∧
    (initAuth st).storage.accessToken = st.storage.accessToken ∧
    (initAuth st).storage.refreshToken = st.storage.refreshToken ∧
    ((optTruthy st.storage.accessToken && !s.isEmpty) = true →
      (initAuth st).memory.token = st.storage.accessToken ∧
      (initAuth st).storage.user = none) ∧
    ((optTruthy st.storage.accessToken && !s.isEmpty) = false →
      (initAuth st).memory.token = none ∧
      (initAuth st).storage.user = some (.bad s)) := by
  by_cases hc : (optTruthy st.storage.accessToken && !s.isEmpty) = true
  · rcases haT : st.storage.accessToken with _ | a
    · rw [haT] at hc
      simp [optTruthy] at hc
    · have hae : a.isEmpty = false := by
        cases hx : a.isEmpty
        · rfl
        · rw [haT] at hc
          simp [optTruthy, hx] at hc
      have hse : s.isEmpty = false := by
        cases hx : s.isEmpty
        · rfl
        · simp [hx] at hc
      rw [initAuth_corrupt st a s haT hae hu hse]
      simp [hm, freshMemory, haT, hc, optTruthy, hae, hse]
  · have hc2 := bool_eq_false _ hc
    rw [initAuth_skip st (by rw [hu]; simpa [optBlobTruthy, blobTruthy] using hc2)]
    simp [hm, freshMemory, hu, hc2]

/-- Witness for C9 in the discarding case: corrupted record next to a
stored token T1. -/
theorem initAuth_corrupt_recovery_witness :
    (initAuth corruptUserWithToken).memory.user = none ∧
    (initAuth corruptUserWithToken).memory.isLoading = false ∧
    (initAuth corruptUserWithToken).storage.accessToken =
      corruptUserWithToken.storage.accessToken ∧
    (initAuth corruptUserWithToken).storage.refreshToken =
      corruptUserWithToken.storage.refreshToken ∧
    ((optTruthy corruptUserWithToken.storage.accessToken && !("garbage".isEmpty)) = true →
      (initAuth corruptUserWithToken).memory.token =
        corruptUserWithToken.storage.accessToken ∧
      (initAuth corruptUserWithToken).storage.user = none) ∧
    ((optTruthy corruptUserWithToken.storage.accessToken && !("garbage".isEmpty)) = false →
      (initAuth corruptUserWithToken).memory.token = none ∧
      (initAuth corruptUserWithToken).storage.user = some (.bad "garbage")) :=
  initAuth_corrupt_recovery corruptUserWithToken "garbage" rfl rfl

/-- C10: with no access token in storage, `authFetch` still issues the
request (the network-call count goes up by one) and the request carries
an `Authorization` header that is present with the empty string as its
value. -/
theorem authFetch_empty_authorization_header (st : ClientState) (url : String)
    (opts : RequestInit) (outcome : Option Response)
    (h : st.storage.accessToken = none) :
    (authFetch st url opts outcome).2.1.headers "Authorization" = some "" ∧
    (authFetch st url opts outcome).2.2.fetchCalls = st.fetchCalls + 1 := by
  constructor
  · rw [authFetch_request st url opts outcome]
    simp [h, authHeaderValue]
  · rcases outcome with _ | resp
    · rfl
    · by_cases h4 : resp.status = 401 <;> simp [authFetch, h4, handleUnauthorized]

/-- Witness for C10: a call from the logged-out initial state. -/
theorem authFetch_empty_authorization_header_witness :
    (authFetch initialState "/api/x" evilOpts
        (some { status := 200, body := "ok" })).2.1.headers "Authorization" = some "" ∧
    (authFetch initialState "/api/x" evilOpts
        (some { status := 200, body := "ok" })).2.2.fetchCalls =
      initialState.fetchCalls + 1 :=
  authFetch_empty_authorization_header initialState "/api/x" evilOpts
    (some { status := 200, body := "ok" }) rfl
